import Mathlib

/-!
Shallow embedding of the two scripts of the Tg-New-Gift-Notify repository:

* `src/gift_checker.py` — key-set diff over a gift catalog (JSON object),
  persisted as a JSON cache file, notifications via a Telegram webhook.
* `src/main.py` — ordered-cursor diff over a list of NFT transfer records,
  persisted as a single integer timestamp in a text file.

Modelling conventions:

* HTTP is modelled by its observable outcome: a raised network error, or a
  response carrying a numeric status code and a body that either decodes or
  does not.  `requests.raise_for_status` raises exactly for status codes in
  `[400, 600)`.
* A JSON object is modelled as an association list `List (String × String)`
  (payloads are opaque strings); a transfer record is a structure whose
  fields are `Option`s, `none` meaning the key is absent in the JSON dict.
* Python `dict.get(k, d)` becomes `Option.getD`; the unguarded subscript
  `x['block_timestamp']` used by the sort key is the one place a `KeyError`
  can escape, so the sorting step returns an `Option`, `none` meaning the
  run dies with an uncaught exception (and hence performs no further
  side effects).
* `sorted(..., key=...)` is a stable sort; a stable sort's output is
  uniquely determined by the key order, so the structural
  `List.insertionSort` used here produces exactly the same list.
* Block timestamps are modelled as naturals (Unix seconds).
* State files are modelled by their content: absent, unparsable, or a
  parsed value.  The result of a run records the final file content and
  what was handed to the notification layer.
-/

/-- JSON body of an HTTP response for the gift-catalog endpoint: a JSON
object (association list key ↦ payload) or content that fails JSON
decoding (e.g. an HTML error page). -/
inductive RBody
  | ok (data : List (String × String))
  | invalid (raw : String)
deriving DecidableEq

/-- Outcome of `requests.get` against the catalog endpoint: a raised
network error, or a response with a status code and a body. -/
inductive HttpOutcome
  | netError
  | response (code : Nat) (body : RBody)
deriving DecidableEq

/-- `fetch_current_data` (src/gift_checker.py lines 38–57): returns the
parsed JSON on success and `None` on `RequestException` (which
`raise_for_status` raises exactly for status codes in `[400, 600)`) or on
`json.JSONDecodeError`. -/
def fetch_current_data : HttpOutcome → Option (List (String × String))
  | HttpOutcome.netError => none
  | HttpOutcome.response code body =>
    if 400 ≤ code ∧ code < 600 then none
    else
      match body with
      | RBody.ok data => some data
      | RBody.invalid _ => none

/-- Content of the local cache file `gifts_data.json`. -/
inductive GFile
  | absent
  | corrupt (raw : String)
  | valid (data : List (String × String))
deriving DecidableEq

/-- `load_previous_data` (src/gift_checker.py lines 60–70): missing file or
`json.JSONDecodeError` both yield the empty dict. -/
def load_previous_data : GFile → List (String × String)
  | GFile.absent => []
  | GFile.corrupt _ => []
  | GFile.valid d => d

/-- `get_gift_keys` (src/gift_checker.py lines 78–80): `set(data.keys())`. -/
def get_gift_keys (d : List (String × String)) : Finset String :=
  (d.map Prod.fst).toFinset

/-- The enumeration of `current_keys - previous_keys` used to build the
message (src/gift_checker.py lines 93–98).  Python iterates a hash set;
the set-level content is what the code's behaviour depends on, and one
enumeration without duplicates is fixed here. -/
def gcNewGiftsList (prev cur : List (String × String)) : List String :=
  ((cur.map Prod.fst).dedup).filter (fun k => decide (¬ k ∈ prev.map Prod.fst))

/-- Python truthiness test `not TOKEN` on an environment variable: absent
(`None`) or the empty string. -/
def falsyStr : Option String → Bool
  | none => true
  | some s => s.isEmpty

/-- Credential guard of `send_telegram_notification` / `send_alert`:
`if not TOKEN or not CHAT_ID`. -/
def credsMissing (creds : Option String × Option String) : Bool :=
  falsyStr creds.1 || falsyStr creds.2

/-- `str.replace('.', '\\.')` applied to the whole message
(src/gift_checker.py line 106). -/
def escapeDots (s : String) : String :=
  String.mk (s.data.flatMap (fun c => if c = '.' then ['\\', '.'] else [c]))

/-- One line of the new-gift list: `f"• ID: \x60{gift_id}\x60"`. -/
def giftLine (gid : String) : String :=
  "• ID: `" ++ gid ++ "`"

/-- The message template of src/gift_checker.py lines 98–105, before the
final dot-escaping `replace`. -/
def gcMessageRaw (gs : List String) : String :=
  "🎉 *NEW TELEGRAM GIFTS DETECTED* 🎉\n" ++
  "Found " ++ toString gs.length ++ " new gift\\(s\\):\n\n" ++
  String.intercalate "\n" (gs.map giftLine) ++ "\n\n" ++
  "Check the repository for updated data\\."

/-- The message actually posted for a list of new gift ids
(src/gift_checker.py lines 101–106). -/
def gcMessage (gs : List String) : String :=
  escapeDots (gcMessageRaw gs)

/-- Result of one run of src/gift_checker.py `main`: the final content of
`gifts_data.json` and the text POSTed to the Telegram webhook (if any). -/
structure GCRun where
  file : GFile
  posted : Option String
deriving DecidableEq

/-- `main` of src/gift_checker.py (lines 82–114): load cache, fetch, exit
early on fetch failure, diff key sets, notify when non-empty (skipped when
credentials are missing), then save the fetched catalog verbatim. -/
def gcMain (creds : Option String × Option String) (file : GFile)
    (out : HttpOutcome) : GCRun :=
  match fetch_current_data out with
  | none => ⟨file, none⟩
  | some cur =>
    let newList := gcNewGiftsList (load_previous_data file) cur
    let posted :=
      if newList.isEmpty then none
      else if credsMissing creds then none
      else some (gcMessage newList)
    ⟨GFile.valid cur, posted⟩

/-- Content of the state file `last_checked_timestamp.txt`. -/
inductive TsFile
  | absent
  | corrupt (raw : String)
  | stored (n : Nat)
deriving DecidableEq

/-- `read_last_timestamp` (src/main.py lines 24–33): missing file or
`ValueError` from `int(...)` both yield `0`. -/
def read_last_timestamp : TsFile → Nat
  | TsFile.absent => 0
  | TsFile.corrupt _ => 0
  | TsFile.stored n => n

/-- One NFT transfer record as used by src/main.py.  Every field the code
reads is an `Option`; `none` models the key being absent from the JSON
record (nested lookups such as `nft_item.metadata.name` collapse to one
`Option` since each level is read with a `{}` default). -/
structure Transfer where
  block_timestamp : Option Nat
  nft_name : Option String
  nft_item_address : Option String
  sender_address : Option String
  recipient_address : Option String
deriving DecidableEq

/-- `transfer.get('block_timestamp', 0)` (src/main.py line 91). -/
def tsOf (t : Transfer) : Nat :=
  t.block_timestamp.getD 0

/-- Comparison used by `sorted(..., key=lambda x: x['block_timestamp'])`. -/
def leTs (a b : Transfer) : Prop :=
  tsOf a ≤ tsOf b

instance : DecidableRel leTs := fun a b => Nat.decLe (tsOf a) (tsOf b)

instance : IsTotal Transfer leTs := ⟨fun a b => Nat.le_total (tsOf a) (tsOf b)⟩

instance : IsTrans Transfer leTs := ⟨fun _ _ _ h h2 => Nat.le_trans h h2⟩

/-- `sorted(data.get('nft_transfers', []), key=lambda x: x['block_timestamp'])`
(src/main.py line 86).  The key function subscripts the record without a
default, so a record missing `block_timestamp` raises `KeyError`: that is
the `none` case.  Otherwise the records are stably sorted by timestamp. -/
def sortedTransfers (l : List Transfer) : Option (List Transfer) :=
  if l.all (fun t => (t.block_timestamp).isSome)
  then some (List.insertionSort leTs l)
  else none

/-- The per-record loop of src/main.py lines 90–127, threading
`new_events_found`, `newest_timestamp` and the list of transfers for which
`send_alert` was called (in call order). -/
def runLoop (last : Nat) :
    List Transfer → Bool → Nat → List Transfer → Bool × Nat × List Transfer
  | [], found, newest, events => (found, newest, events)
  | t :: rest, found, newest, events =>
    if tsOf t ≤ last then runLoop last rest found newest events
    else runLoop last rest true
      (if newest < tsOf t then tsOf t else newest) (events ++ [t])

/-- Result of one run of `check_for_new_gifts`: final state-file content
and the transfers alerted on, in emission order. -/
structure MainRun where
  file : TsFile
  events : List Transfer
deriving DecidableEq

/-- JSON body for the transfers endpoint: a decoded object whose
`nft_transfers` field may be absent, or undecodable content. -/
inductive MBody
  | ok (data : Option (List Transfer))
  | invalid (raw : String)
deriving DecidableEq

/-- Outcome of `requests.get` against the transfers endpoint. -/
inductive MHttpOutcome
  | netError
  | response (code : Nat) (body : MBody)
deriving DecidableEq

/-- The fetch block of src/main.py lines 69–81: any `RequestException`
(network error, `raise_for_status` on a status in `[400, 600)`, or a JSON
decode error, which under requests ≥ 2.27 is a `RequestException`) is
caught and ends the run with no state change. -/
def fetchMain : MHttpOutcome → Option (Option (List Transfer))
  | MHttpOutcome.netError => none
  | MHttpOutcome.response code body =>
    if 400 ≤ code ∧ code < 600 then none
    else
      match body with
      | MBody.ok data => some data
      | MBody.invalid _ => none

/-- Diff-and-update core of `check_for_new_gifts` (src/main.py lines
83–135), after a successful fetch: sort (may raise `KeyError`, the `none`
case), loop, then rewrite the state file only when
`new_events_found and newest_timestamp > last_timestamp`. -/
def checkCore (file : TsFile) (transfers : List Transfer) : Option MainRun :=
  match sortedTransfers transfers with
  | none => none
  | some sorted =>
    let last := read_last_timestamp file
    let res := runLoop last sorted false last []
    let file2 :=
      if res.1 = true ∧ last < res.2.1 then TsFile.stored res.2.1 else file
    some ⟨file2, res.2.2⟩

/-- `check_for_new_gifts` (src/main.py lines 63–135): read the cursor,
fetch (early return on failure), then diff and update.
`data.get('nft_transfers', [])` supplies the empty-list default. -/
def check_for_new_gifts (file : TsFile) (out : MHttpOutcome) : Option MainRun :=
  match fetchMain out with
  | none => some ⟨file, []⟩
  | some data => checkCore file (data.getD [])

/-- State-file content after one scheduled invocation of src/main.py: on
an uncaught exception (`none`) the write at line 132 was never reached. -/
def runFile (file : TsFile) (out : MHttpOutcome) : TsFile :=
  match check_for_new_gifts file out with
  | some r => r.file
  | none => file

/-- State-file content after a sequence of scheduled invocations. -/
def runFiles (file : TsFile) : List MHttpOutcome → TsFile
  | [] => file
  | o :: os => runFiles (runFile file o) os

/-- `nft_item.get('metadata', \x7b\x7d).get('name', 'Collectible Gift')`
(src/main.py line 109). -/
def itemName (t : Transfer) : String :=
  t.nft_name.getD "Collectible Gift"

/-- `transfer.get('nft_item_address', 'N/A')` (src/main.py line 110). -/
def itemAddress (t : Transfer) : String :=
  t.nft_item_address.getD "N/A"

/-- `transfer.get('sender', \x7b\x7d).get('address', 'N/A')` (line 121). -/
def senderAddress (t : Transfer) : String :=
  t.sender_address.getD "N/A"

/-- `transfer.get('recipient', \x7b\x7d).get('address', 'N/A')` (line 122). -/
def recipientAddress (t : Transfer) : String :=
  t.recipient_address.getD "N/A"

/-- Zero-padded two-digit decimal, as `%m %d %H %M %S` render. -/
def pad2 (n : Nat) : String :=
  if n < 10 then "0" ++ toString n else toString n

/-- Proleptic-Gregorian civil date from a day count since 1970-01-01
(standard days-to-civil conversion, all in `Nat`). -/
def civilFromDays (z0 : Nat) : Nat × Nat × Nat :=
  let z := z0 + 719468
  let era := z / 146097
  let doe := z % 146097
  let yoe := (doe - doe / 1460 + doe / 36524 - doe / 146096) / 365
  let y := yoe + era * 400
  let doy := doe - (365 * yoe + yoe / 4 - yoe / 100)
  let mp := (5 * doy + 2) / 153
  let d := doy - (153 * mp + 2) / 5 + 1
  let m := if mp < 10 then mp + 3 else mp - 9
  (if m ≤ 2 then y + 1 else y, m, d)

/-- `time.strftime("%Y-%m-%d %H:%M:%S UTC", time.gmtime(ts))`
(src/main.py line 113). -/
def timestampReadable (ts : Nat) : String :=
  let days := ts / 86400
  let secs := ts % 86400
  let c := civilFromDays days
  toString c.1 ++ "-" ++ pad2 c.2.1 ++ "-" ++ pad2 c.2.2 ++ " " ++
    pad2 (secs / 3600) ++ ":" ++ pad2 (secs % 3600 / 60) ++ ":" ++
    pad2 (secs % 60) ++ " UTC"

/-- The alert text of src/main.py lines 117–125 (`\!` and `\.` in the
Python literals are the two-character sequences backslash-bang and
backslash-dot; every feed-provided field is inserted verbatim). -/
def mainMessage (t : Transfer) (ct : Nat) : String :=
  "🎁 *NEW NFT GIFT ALERT\\!* 🎁\n\n" ++
  "**Item:** `" ++ itemName t ++ "`\n" ++
  "**Time:** `" ++ timestampReadable ct ++ "`\n" ++
  "**Source:** `" ++ (senderAddress t).take 8 ++ "...`\n" ++
  "**Destination:** `" ++ (recipientAddress t).take 8 ++ "...`\n" ++
  "**Link:** [View Gift](https://tonscan.org/nft/" ++ itemAddress t ++ ")\n" ++
  "_Check the link for full details, price, and marketplace\\._"

/-- The texts handed to `send_alert` during a run, in order. -/
def mainAlerts (r : MainRun) : List String :=
  r.events.map (fun t => mainMessage t (tsOf t))

/-- The texts that actually reach the webhook POST: `send_alert` returns
before posting when credentials are missing (src/main.py lines 43–45). -/
def mainDelivered (creds : Option String × Option String) (r : MainRun) :
    List String :=
  if credsMissing creds then [] else mainAlerts r

/-- Event count and final file of a run, for concrete evaluation. -/
def runSummary (o : Option MainRun) : Option (Nat × TsFile) :=
  o.map (fun r => (r.events.length, r.file))

/-- Events of a run (empty when the run died on an exception). -/
def eventsOf (o : Option MainRun) : List Transfer :=
  match o with
  | some r => r.events
  | none => []

/-- A fetch outcome delivering status 200 and a decoded `nft_transfers`
list — the ordinary successful fetch. -/
def okOutcome (l : List Transfer) : MHttpOutcome :=
  MHttpOutcome.response 200 (MBody.ok (some l))

/-- HTTP success range as the spec uses it. -/
def is2xx (code : Nat) : Bool :=
  decide (200 ≤ code ∧ code < 300)

/-- The characters Telegram's MarkdownV2 mode reserves
(`_*[]()~\x60>#+-=|\x7b\x7d.!`). -/
def mdv2Specials : List Char :=
  ['_', '*', '[', ']', '(', ')', '~', Char.ofNat 96, '>', '#', '+', '-',
   '=', '|', Char.ofNat 123, Char.ofNat 125, '.', '!']

/-- Scan checking that every reserved character is immediately preceded by
a backslash. -/
def escapedScan : Option Char → List Char → Bool
  | _, [] => true
  | prev, c :: rest =>
    (if c ∈ mdv2Specials then decide (prev = some '\\') else true)
      && escapedScan (some c) rest

/-- Every MarkdownV2-reserved character of `s` is escaped. -/
def allSpecialsEscaped (s : String) : Bool :=
  escapedScan none s.data

/-- Unrolling of the per-record loop: the emitted transfers are exactly the
filter of the input by `last < tsOf`, in input order; `new_events_found` is
their non-emptiness; `newest_timestamp` is the running maximum. -/
theorem runLoop_eq (last : Nat) (l : List Transfer) :
    ∀ (f : Bool) (n : Nat) (e : List Transfer), last ≤ n →
      runLoop last l f n e =
        (f || l.any (fun t => decide (last < tsOf t)),
         l.foldl (fun m t => max m (tsOf t)) n,
         e ++ l.filter (fun t => decide (last < tsOf t))) := by
  induction l with
  | nil => intro f n e _; simp [runLoop]
  | cons t rest ih =>
    intro f n e hn
    by_cases h : tsOf t ≤ last
    · have h1 : ¬ last < tsOf t := Nat.not_lt.mpr h
      have h2 : max n (tsOf t) = n := Nat.max_eq_left (Nat.le_trans h hn)
      simp only [runLoop, if_pos h, ih f n e hn, List.any_cons,
        List.foldl_cons, List.filter_cons]
      simp [h1, h2]
    · have h1 : last < tsOf t := Nat.not_le.mp h
      have hle : last ≤ (if n < tsOf t then tsOf t else n) := by
        split
        · exact Nat.le_of_lt h1
        · exact hn
      have h2 : (if n < tsOf t then tsOf t else n) = max n (tsOf t) := by
        split <;> omega
      simp only [runLoop, if_neg h, ih true _ _ hle, List.any_cons,
        List.foldl_cons, List.filter_cons]
      simp [h1, h2, List.append_assoc]

/-- The running maximum never drops below its seed. -/
theorem le_foldl_max (l : List Transfer) :
    ∀ n : Nat, n ≤ l.foldl (fun m u => max m (tsOf u)) n := by
  induction l with
  | nil => intro n; exact Nat.le_refl n
  | cons a rest ih =>
    intro n
    exact Nat.le_trans (Nat.le_max_left n (tsOf a)) (ih (max n (tsOf a)))

/-- The running maximum dominates every member's key. -/
theorem tsOf_le_foldl_max {t : Transfer} {l : List Transfer} (ht : t ∈ l) :
    ∀ n : Nat, tsOf t ≤ l.foldl (fun m u => max m (tsOf u)) n := by
  induction l with
  | nil => cases ht
  | cons a rest ih =>
    intro n
    rcases List.mem_cons.mp ht with h | h
    · subst h
      exact Nat.le_trans (Nat.le_max_right n (tsOf t)) (le_foldl_max rest _)
    · exact ih h (max n (tsOf a))

/-- The running maximum is invariant under permutation of the input. -/
theorem foldl_max_perm {l₁ l₂ : List Transfer} (h : l₁.Perm l₂) :
    ∀ n : Nat, l₁.foldl (fun m u => max m (tsOf u)) n =
      l₂.foldl (fun m u => max m (tsOf u)) n := by
  induction h with
  | nil => intro n; rfl
  | cons a _ ih => intro n; simp only [List.foldl_cons, ih]
  | swap a b l => intro n; simp only [List.foldl_cons, Nat.max_right_comm]
  | trans _ _ ih₁ ih₂ => intro n; rw [ih₁, ih₂]

/-- Evaluation of the diff-and-update core on records that all carry the
ordering key. -/
theorem checkCore_eq (file : TsFile) (l : List Transfer)
    (h : l.all (fun t => (t.block_timestamp).isSome) = true) :
    checkCore file l =
      some ⟨(if ((List.insertionSort leTs l).any
                  (fun t => decide (read_last_timestamp file < tsOf t)) = true ∧
                 read_last_timestamp file <
                   (List.insertionSort leTs l).foldl
                     (fun m t => max m (tsOf t)) (read_last_timestamp file))
             then TsFile.stored ((List.insertionSort leTs l).foldl
                     (fun m t => max m (tsOf t)) (read_last_timestamp file))
             else file),
            (List.insertionSort leTs l).filter
              (fun t => decide (read_last_timestamp file < tsOf t))⟩ := by
  have hs : sortedTransfers l = some (List.insertionSort leTs l) := by
    unfold sortedTransfers; rw [if_pos h]
  unfold checkCore
  rw [hs]
  dsimp only
  rw [runLoop_eq (read_last_timestamp file) (List.insertionSort leTs l)
    false (read_last_timestamp file) [] (Nat.le_refl _)]
  simp

/-- When some record lacks the ordering key, the sort raises and the core
dies. -/
theorem checkCore_none (file : TsFile) (l : List Transfer)
    (h : ¬ l.all (fun t => (t.block_timestamp).isSome) = true) :
    checkCore file l = none := by
  have hs : sortedTransfers l = none := by
    unfold sortedTransfers; rw [if_neg h]
  unfold checkCore
  rw [hs]

/-- A status-200 fetch with a decoded `nft_transfers` list reaches the
core directly. -/
theorem check_ok_eq (file : TsFile) (l : List Transfer) :
    check_for_new_gifts file (okOutcome l) = checkCore file l := rfl

/-- The state-update condition holds exactly when some new record exists,
and then the written value strictly exceeds the old cursor. -/
theorem update_cond_iff (last : Nat) (s : List Transfer) :
    (s.any (fun t => decide (last < tsOf t)) = true ∧
      last < s.foldl (fun m t => max m (tsOf t)) last) ↔
    s.any (fun t => decide (last < tsOf t)) = true := by
  constructor
  · exact fun h => h.1
  · intro h
    refine ⟨h, ?_⟩
    rcases List.any_eq_true.mp h with ⟨t, ht, hp⟩
    have hp2 : last < tsOf t := of_decide_eq_true hp
    exact Nat.lt_of_lt_of_le hp2 (tsOf_le_foldl_max ht last)

/-- The key-set diff enumeration has exactly the key-set difference as its
set of elements. -/
theorem gcNewGiftsList_toFinset (prev cur : List (String × String)) :
    (gcNewGiftsList prev cur).toFinset =
      get_gift_keys cur \ get_gift_keys prev := by
  ext k
  simp [gcNewGiftsList, get_gift_keys, List.mem_filter, List.mem_dedup,
    Finset.mem_sdiff, List.mem_toFinset]

/-- C1 (counterexample): the claim of first-run suppression is false.  With
the zero-value cursor (absent state file) and one fetched record at
timestamp 5, the run emits 1 event, not 0 (the cursor does become the
newest key). -/
theorem claim_C1_counterexample :
    runSummary (check_for_new_gifts TsFile.absent
      (okOutcome [⟨some 5, none, none, none, none⟩])) =
      some (1, TsFile.stored 5) := by decide

/-- C1 (amended): on a first run (loaded cursor 0) with N fetched records,
all carrying strictly positive ordering keys, the run emits N events — one
per record, there is no first-run suppression — and the persisted cursor
becomes the newest record's ordering key. -/
theorem claim_C1_amended (file : TsFile) (l : List Transfer)
    (h0 : read_last_timestamp file = 0)
    (hk : l.all (fun t => (t.block_timestamp).isSome) = true)
    (hp : ∀ t ∈ l, 0 < tsOf t) (hne : l ≠ []) :
    runSummary (check_for_new_gifts file (okOutcome l)) =
      some (l.length, TsFile.stored ((l.map tsOf).foldl max 0)) := by
  rw [check_ok_eq, checkCore_eq file l hk, h0]
  set s := List.insertionSort leTs l with hs
  have hperm : s.Perm l := List.perm_insertionSort leTs l
  have hpall : ∀ t ∈ s, (fun t => decide (0 < tsOf t)) t = true := by
    intro t ht
    exact decide_eq_true (hp t (hperm.mem_iff.mp ht))
  have hfilter : s.filter (fun t => decide (0 < tsOf t)) = s :=
    List.filter_eq_self.mpr hpall
  have hsne : s ≠ [] := by
    intro hnil
    have := hperm.length_eq
    rw [hnil] at this
    exact hne (List.eq_nil_of_length_eq_zero this.symm)
  have hany : s.any (fun t => decide (0 < tsOf t)) = true := by
    rcases List.exists_mem_of_ne_nil s hsne with ⟨t, ht⟩
    exact List.any_eq_true.mpr ⟨t, ht, hpall t ht⟩
  have hcond : s.any (fun t => decide (0 < tsOf t)) = true ∧
      0 < s.foldl (fun m t => max m (tsOf t)) 0 :=
    (update_cond_iff 0 s).mpr hany
  have hmax : s.foldl (fun m t => max m (tsOf t)) 0 =
      l.foldl (fun m t => max m (tsOf t)) 0 := foldl_max_perm hperm 0
  simp only [runSummary, Option.map_some', if_pos hcond, hfilter]
  rw [hmax, List.foldl_map]
  exact congrArg some (congrArg (fun n => (n, TsFile.stored _)) (hperm.length_eq))

/-- C1 (witness): the amended statement at a concrete two-record first
run. -/
theorem claim_C1_witness :
    runSummary (check_for_new_gifts TsFile.absent
        (okOutcome [⟨some 3, none, none, none, none⟩,
                    ⟨some 7, none, none, none, none⟩])) =
      some (2, TsFile.stored (([⟨some 3, none, none, none, none⟩,
          (⟨some 7, none, none, none, none⟩ : Transfer)].map tsOf).foldl
            max 0)) :=
  claim_C1_amended TsFile.absent _ (by decide) (by decide) (by decide)
    (by decide)

/-- C2: with a non-zero stored cursor and every fetched record carrying the
ordering key, a record is alerted on iff its `block_timestamp` strictly
exceeds the cursor (as a multiset: the events are a permutation of that
filter of the input), and the events are emitted in ascending order of
`block_timestamp`. -/
theorem claim_C2 (file : TsFile) (l : List Transfer)
    (h1 : 0 < read_last_timestamp file)
    (hk : l.all (fun t => (t.block_timestamp).isSome) = true) :
    (check_for_new_gifts file (okOutcome l)).isSome = true ∧
    (∀ t, t ∈ eventsOf (check_for_new_gifts file (okOutcome l)) ↔
      (t ∈ l ∧ read_last_timestamp file < tsOf t)) ∧
    (eventsOf (check_for_new_gifts file (okOutcome l))).Perm
      (l.filter (fun t => decide (read_last_timestamp file < tsOf t))) ∧
    List.Pairwise (fun a b => tsOf a ≤ tsOf b)
      (eventsOf (check_for_new_gifts file (okOutcome l))) := by
  rw [check_ok_eq, checkCore_eq file l hk]
  set s := List.insertionSort leTs l with hs
  have hperm : s.Perm l := List.perm_insertionSort leTs l
  have hsorted : List.Pairwise leTs s := List.sorted_insertionSort leTs l
  refine ⟨rfl, ?_, ?_, ?_⟩
  · intro t
    simp only [eventsOf, List.mem_filter, decide_eq_true_eq,
      hperm.mem_iff]
  · simp only [eventsOf]
    exact List.Perm.filter _ hperm
  · simp only [eventsOf]
    exact List.Pairwise.filter _ hsorted

/-- C2 (witness): the permutation conclusion at a concrete run with cursor
5 and unsorted records at timestamps 9 and 3. -/
theorem claim_C2_witness :
    (eventsOf (check_for_new_gifts (TsFile.stored 5)
        (okOutcome [⟨some 9, none, none, none, none⟩,
                    ⟨some 3, none, none, none, none⟩]))).Perm
      ([⟨some 9, none, none, none, none⟩,
        (⟨some 3, none, none, none, none⟩ : Transfer)].filter
          (fun t => decide (read_last_timestamp (TsFile.stored 5) < tsOf t))) :=
  (claim_C2 (TsFile.stored 5) _ (by decide) (by decide)).2.2.1

/-- C3: for every previous state and successfully fetched catalog, the new
keys are exactly the fetched key set minus the previous key set, and the
persisted state is a full replacement by the fetched catalog. -/
theorem claim_C3 (creds : Option String × Option String) (file : GFile)
    (out : HttpOutcome) (cur : List (String × String))
    (h : fetch_current_data out = some cur) :
    (gcMain creds file out).file = GFile.valid cur ∧
    (gcNewGiftsList (load_previous_data file) cur).toFinset =
      get_gift_keys cur \ get_gift_keys (load_previous_data file) := by
  refine ⟨?_, gcNewGiftsList_toFinset _ _⟩
  simp [gcMain, h]

/-- C3 (witness): concrete run — previous keys {a}, fetched {a, c}. -/
theorem claim_C3_witness :
    (gcMain (some "t", some "c") (GFile.valid [("a", "pa")])
        (HttpOutcome.response 200 (RBody.ok [("a", "pa2"), ("c", "pc")]))).file =
      GFile.valid [("a", "pa2"), ("c", "pc")] ∧
    (gcNewGiftsList (load_previous_data (GFile.valid [("a", "pa")]))
        [("a", "pa2"), ("c", "pc")]).toFinset =
      get_gift_keys [("a", "pa2"), ("c", "pc")] \
        get_gift_keys (load_previous_data (GFile.valid [("a", "pa")])) :=
  claim_C3 (some "t", some "c") (GFile.valid [("a", "pa")]) _ _ rfl

/-- C4: when the fetch reports failure, neither variant mutates its state
file and no notification is produced for that run. -/
theorem claim_C4 (creds : Option String × Option String) (file : GFile)
    (out : HttpOutcome) (tfile : TsFile) (out2 : MHttpOutcome)
    (h1 : fetch_current_data out = none) (h2 : fetchMain out2 = none) :
    gcMain creds file out = ⟨file, none⟩ ∧
    check_for_new_gifts tfile out2 = some ⟨tfile, []⟩ := by
  constructor
  · simp [gcMain, h1]
  · simp [check_for_new_gifts, h2]

/-- C4 (witness): concrete network errors leave both state files as they
were. -/
theorem claim_C4_witness :
    gcMain (some "t", some "c") (GFile.valid [("a", "p")])
        HttpOutcome.netError = ⟨GFile.valid [("a", "p")], none⟩ ∧
    check_for_new_gifts (TsFile.stored 7) MHttpOutcome.netError =
      some ⟨TsFile.stored 7, []⟩ :=
  claim_C4 (some "t", some "c") (GFile.valid [("a", "p")])
    HttpOutcome.netError (TsFile.stored 7) MHttpOutcome.netError rfl rfl

/-- Case analysis of one scheduled invocation of src/main.py: the state
file is either left untouched or rewritten with a strictly larger
timestamp. -/
theorem runFile_cases (file : TsFile) (out : MHttpOutcome) :
    runFile file out = file ∨
      ∃ n, read_last_timestamp file < n ∧ runFile file out = TsFile.stored n := by
  unfold runFile
  cases hc : check_for_new_gifts file out with
  | none => left; rfl
  | some r =>
    revert hc
    unfold check_for_new_gifts
    cases hf : fetchMain out with
    | none =>
      intro hc
      cases hc
      left; rfl
    | some data =>
      dsimp only
      by_cases hall :
          (data.getD []).all (fun t => (t.block_timestamp).isSome) = true
      · rw [checkCore_eq file _ hall]
        intro hc
        cases hc
        by_cases hcond : ((List.insertionSort leTs (data.getD [])).any
              (fun t => decide (read_last_timestamp file < tsOf t)) = true ∧
            read_last_timestamp file <
              (List.insertionSort leTs (data.getD [])).foldl
                (fun m t => max m (tsOf t)) (read_last_timestamp file))
        · right
          refine ⟨_, hcond.2, ?_⟩
          dsimp only
          rw [if_pos hcond]
        · left
          dsimp only
          rw [if_neg hcond]
      · rw [checkCore_none file _ hall]
        intro hc
        cases hc

/-- C5: across every sequence of runs of the ordered-cursor variant the
persisted watermark never decreases; each single run either leaves the
state file exactly as it was or rewrites it with a timestamp strictly
greater than the previously stored one. -/
theorem claim_C5 :
    (∀ (file : TsFile) (outs : List MHttpOutcome),
      read_last_timestamp file ≤ read_last_timestamp (runFiles file outs)) ∧
    (∀ (file : TsFile) (out : MHttpOutcome),
      runFile file out = file ∨
        ∃ n, read_last_timestamp file < n ∧
          runFile file out = TsFile.stored n) := by
  have hstep : ∀ (file : TsFile) (out : MHttpOutcome),
      read_last_timestamp file ≤ read_last_timestamp (runFile file out) := by
    intro file out
    rcases runFile_cases file out with h | ⟨n, hn, h⟩
    · rw [h]
    · rw [h]
      exact Nat.le_of_lt hn
  refine ⟨?_, runFile_cases⟩
  intro file outs
  induction outs generalizing file with
  | nil => exact Nat.le_refl _
  | cons o os ih =>
    simp only [runFiles]
    exact Nat.le_trans (hstep file o) (ih (runFile file o))

set_option maxRecDepth 100000 in
/-- C6: the claim that every special character reaching the webhook is
escaped is the code's own stated intent, but the code only escapes `.`
(and a few literals): a feed-provided gift id containing a reserved
character (here a backtick) is inserted verbatim into the posted text.
This theorem evaluates the run at the failing input. -/
theorem claim_C6_bug :
    (gcMain (some "t", some "c") GFile.absent
        (HttpOutcome.response 200 (RBody.ok [("x`y", "p")]))).posted =
      some (escapeDots
          ("🎉 *NEW TELEGRAM GIFTS DETECTED* 🎉\nFound 1 new gift\\(s\\):\n\n• ID: `")
        ++ "x`y" ++
        escapeDots ("`\n\nCheck the repository for updated data\\.")) ∧
    allSpecialsEscaped "x`y" = false := by
  exact ⟨by decide, by decide⟩

/-- C7 (counterexample): a status-300 response with a decodable body is
returned as success by `fetch_current_data`, so "non-2xx status ⇒ failure
signal" is false as stated. -/
theorem claim_C7_counterexample :
    fetch_current_data (HttpOutcome.response 300 (RBody.ok [("k", "v")])) =
      some [("k", "v")] ∧ is2xx 300 = false := by
  exact ⟨by decide, by decide⟩

/-- C7 (amended): both fetch operations never raise past their boundary and
return the parsed body exactly when the response decodes and its status is
outside `[400, 600)` (the statuses `raise_for_status` flags); network
errors, 4xx/5xx statuses and decode failures all yield the failure
signal. -/
theorem claim_C7_amended (out : HttpOutcome) (d : List (String × String))
    (out2 : MHttpOutcome) (d2 : Option (List Transfer)) :
    (fetch_current_data out = some d ↔
      ∃ code, out = HttpOutcome.response code (RBody.ok d) ∧
        ¬(400 ≤ code ∧ code < 600)) ∧
    (fetchMain out2 = some d2 ↔
      ∃ code, out2 = MHttpOutcome.response code (MBody.ok d2) ∧
        ¬(400 ≤ code ∧ code < 600)) := by
  constructor
  · cases out with
    | netError => simp [fetch_current_data]
    | response code body =>
      cases body with
      | ok data =>
        by_cases h : 400 ≤ code ∧ code < 600
        · simp [fetch_current_data, h]
        · have hfe : fetch_current_data
              (HttpOutcome.response code (RBody.ok data)) = some data := by
            simp [fetch_current_data, h]
          rw [hfe]
          constructor
          · intro hd
            injection hd with h1
            exact ⟨code, by rw [h1], h⟩
          · rintro ⟨c, hc, hnc⟩
            injection hc with h1 h2
            injection h2 with h3
            rw [h3]
      | invalid raw =>
        by_cases h : 400 ≤ code ∧ code < 600 <;>
          simp [fetch_current_data, h]
  · cases out2 with
    | netError => simp [fetchMain]
    | response code body =>
      cases body with
      | ok data =>
        by_cases h : 400 ≤ code ∧ code < 600
        · simp [fetchMain, h]
        · have hfe : fetchMain
              (MHttpOutcome.response code (MBody.ok data)) = some data := by
            simp [fetchMain, h]
          rw [hfe]
          constructor
          · intro hd
            injection hd with h1
            exact ⟨code, by rw [h1], h⟩
          · rintro ⟨c, hc, hnc⟩
            injection hc with h1 h2
            injection h2 with h3
            rw [h3]
      | invalid raw =>
        by_cases h : 400 ≤ code ∧ code < 600 <;>
          simp [fetchMain, h]

/-- C8 (counterexample): with a corrupt timestamp state file, a fully
successful run of src/main.py whose fetch yields an empty transfer list
completes without rewriting the file — the invalid content survives, so
"a subsequent successful run overwrites it with valid content" is false as
stated. -/
theorem claim_C8_counterexample :
    runFile (TsFile.corrupt "junk") (okOutcome []) = TsFile.corrupt "junk" := by
  decide

/-- C8 (amended): both loaders return the zero-value cursor on an absent or
unparsable state file without propagating an error; a subsequent successful
run of the key-set variant always overwrites the file with the fetched
catalog, while the timestamp variant overwrites it (with the maximum
fetched key) exactly when some fetched record has a key above the zero
cursor, and otherwise leaves the invalid content in place. -/
theorem claim_C8_amended :
    (∀ s, read_last_timestamp (TsFile.corrupt s) = 0) ∧
    read_last_timestamp TsFile.absent = 0 ∧
    (∀ s, load_previous_data (GFile.corrupt s) = []) ∧
    load_previous_data GFile.absent = [] ∧
    (∀ (creds : Option String × Option String) (s : String)
        (out : HttpOutcome) (cur : List (String × String)),
      fetch_current_data out = some cur →
        (gcMain creds (GFile.corrupt s) out).file = GFile.valid cur) ∧
    (∀ (s : String) (l : List Transfer),
      l.all (fun t => (t.block_timestamp).isSome) = true →
      l.any (fun t => decide (0 < tsOf t)) = true →
      runFile (TsFile.corrupt s) (okOutcome l) =
        TsFile.stored (l.foldl (fun m t => max m (tsOf t)) 0)) := by
  refine ⟨fun s => rfl, rfl, fun s => rfl, rfl, ?_, ?_⟩
  · intro creds s out cur h
    simp [gcMain, h]
  · intro s l hall hany
    have hperm : (List.insertionSort leTs l).Perm l :=
      List.perm_insertionSort leTs l
    have hany2 : (List.insertionSort leTs l).any
        (fun t => decide (0 < tsOf t)) = true := by
      rcases List.any_eq_true.mp hany with ⟨t, ht, hp⟩
      exact List.any_eq_true.mpr ⟨t, hperm.mem_iff.mpr ht, hp⟩
    have hcond := (update_cond_iff 0 (List.insertionSort leTs l)).mpr hany2
    have h0 : read_last_timestamp (TsFile.corrupt s) = 0 := rfl
    unfold runFile
    rw [check_ok_eq, checkCore_eq _ l hall, h0]
    dsimp only
    rw [if_pos hcond, foldl_max_perm hperm 0]

/-- C8 (witness): corrupt files load as zero state, and a successful
key-set run replaces the corrupt cache with the fetched catalog. -/
theorem claim_C8_witness :
    read_last_timestamp (TsFile.corrupt "x") = 0 ∧
    (gcMain (some "t", some "c") (GFile.corrupt "y")
        (HttpOutcome.response 200 (RBody.ok [("a", "p")]))).file =
      GFile.valid [("a", "p")] :=
  ⟨claim_C8_amended.1 "x",
   claim_C8_amended.2.2.2.2.1 (some "t", some "c") "y" _ _ rfl⟩

/-- C9: with the bot token or chat id environment variable missing (or
empty), nothing is posted to the webhook, and the run still completes and
persists the cursor computed from the fetched data (the key-set variant
saves the fetched catalog; the ordered variant's delivered list is empty
while its state transition does not depend on credentials at all). -/
theorem claim_C9 (tok chat : Option String)
    (h : credsMissing (tok, chat) = true) :
    (∀ (file : GFile) (out : HttpOutcome) (cur : List (String × String)),
      fetch_current_data out = some cur →
        gcMain (tok, chat) file out = ⟨GFile.valid cur, none⟩) ∧
    (∀ r : MainRun, mainDelivered (tok, chat) r = []) := by
  constructor
  · intro file out cur hf
    simp only [gcMain, hf]
    by_cases he : (gcNewGiftsList (load_previous_data file) cur).isEmpty
    · simp [he]
    · simp [he, h]
  · intro r
    simp [mainDelivered, h]

/-- C9 (witness): with both variables absent, a successful catalog run that
finds a new gift posts nothing and still saves the catalog; nothing is
delivered for any ordered-variant run. -/
theorem claim_C9_witness :
    gcMain (none, none) GFile.absent
        (HttpOutcome.response 200 (RBody.ok [("a", "p")])) =
      ⟨GFile.valid [("a", "p")], none⟩ ∧
    mainDelivered (none, none) ⟨TsFile.stored 5, []⟩ = [] :=
  ⟨(claim_C9 none none (by decide)).1 GFile.absent _ [("a", "p")] rfl,
   (claim_C9 none none (by decide)).2 ⟨TsFile.stored 5, []⟩⟩

/-- C10: a successfully fetched ordered-cursor run completes (returns
rather than raising) exactly when every fetched record carries the
`block_timestamp` key — the sort subscripts it unguarded — while all other
record fields are read with defaults, so their absence (the `none` fields
of any `Transfer`) never prevents completion; a failed fetch also returns
normally. -/
theorem claim_C10 :
    (∀ (file : TsFile) (l : List Transfer),
      ((check_for_new_gifts file (okOutcome l)).isSome = true ↔
        l.all (fun t => (t.block_timestamp).isSome) = true)) ∧
    (∀ file : TsFile,
      (check_for_new_gifts file MHttpOutcome.netError).isSome = true) := by
  constructor
  · intro file l
    rw [check_ok_eq]
    by_cases hall : l.all (fun t => (t.block_timestamp).isSome) = true
    · rw [checkCore_eq file l hall]
      simp [hall]
    · rw [checkCore_none file l hall]
      simp [hall]
  · intro file
    rfl
